import Mathlib

/-!
# Verification of the HDR metadata conversion engine

A shallow embedding, in Lean 4, of the conversion engine of
`get_hdr_metadata.py`: the rational-valued colorimetry quantities
(`MDItem`), chromaticity points (`MDItemColorXY`), mastering-display and
content-light-level records, the per-encoder color mapping tables, the
`ColorData` descriptor, and the `parse_frame_data` orchestrator.

Modelling conventions:
* Python `int` is `Int` (arbitrary precision in both languages).
* Python `float` arithmetic is idealised as exact rational arithmetic
  (`Rat`); `int(x)` on a float is truncation toward zero (`pyTrunc`) and
  `round(x)` is round-half-to-even (`pyRound`), applied to the exact
  rational value.
* Python dictionaries are structures with `Option`-valued fields; a `none`
  field models an absent key, so an unguarded `d[k]` access on an absent
  key (Python `KeyError`) is a `none` propagated to the caller.
* Raised exceptions are modelled as `Option.none` results: a constructor
  that can raise (`MDItem.__init__` raising `IndexError` / `ValueError` /
  `ZeroDivisionError`, or a `KeyError` from a missing dict key) becomes an
  `Option`-returning `init` function.
* `str.split("/")` is modelled by `pySplit · '/'` over the character list
  (same semantics: all fields kept, including empty ones).
* `int(str)` is modelled by `pyInt`: optional surrounding whitespace,
  optional sign, a nonempty digit run with single underscores allowed
  between digits (exotic Unicode digit forms are not modelled).
-/

/-- Truncation toward zero of an exact rational: the model of Python's
`int()` applied to a float value. -/
def pyTrunc (q : Rat) : Int := if 0 ≤ q then q.floor else -((-q).floor)

/-- Round half to even of an exact rational: the model of Python's
`round()` applied to a float value. -/
def pyRound (q : Rat) : Int :=
  let f := q.floor
  let r := q - (f : Rat)
  if r < 1/2 then f
  else if (1 : Rat)/2 < r then f + 1
  else if f % 2 = 0 then f else f + 1

/-- Splitting a character list at every occurrence of `sep`, keeping empty
fields; `cur` is the (reversed) field being accumulated. -/
def splitAux (sep : Char) : List Char → List Char → List (List Char)
  | [], cur => [cur.reverse]
  | c :: cs, cur =>
    if c = sep then cur.reverse :: splitAux sep cs []
    else splitAux sep cs (c :: cur)

/-- Model of Python's `str.split(sep)` for a one-character separator: all
fields are kept, including empty ones, and `"".split(sep) == [""]`. -/
def pySplit (s : String) (sep : Char) : List String :=
  (splitAux sep s.data []).map String.mk

/-- Digit-run scanner for `pyInt`: `acc` is the value read so far,
`prevDigit` records whether the previous character was a digit (an
underscore may only stand between two digits, as in Python). -/
def pyDigits : Nat → Bool → List Char → Option Nat
  | acc, prevDigit, [] => if prevDigit then some acc else none
  | acc, prevDigit, c :: cs =>
    if c.isDigit then pyDigits (10 * acc + (c.toNat - 48)) true cs
    else if c = '_' then
      if prevDigit then
        match cs with
        | d :: cs2 => if d.isDigit then pyDigits (10 * acc + (d.toNat - 48)) true cs2 else none
        | [] => none
      else none
    else none

/-- Model of Python's `int(str)`: optional surrounding whitespace, an
optional single sign, then a nonempty digit run with single underscores
permitted between digits. -/
def pyInt (s : String) : Option Int :=
  let cs := ((s.data.dropWhile Char.isWhitespace).reverse.dropWhile Char.isWhitespace).reverse
  match cs with
  | '+' :: rest => (pyDigits 0 false rest).map Int.ofNat
  | '-' :: rest => (pyDigits 0 false rest).map (fun n => -(n : Int))
  | rest => (pyDigits 0 false rest).map Int.ofNat

/-- Does `needle` occur at the head of the list? (helper for `strContains`). -/
def startsWithL : List Char → List Char → Bool
  | _, [] => true
  | [], _ :: _ => false
  | a :: as, b :: bs => a == b && startsWithL as bs

/-- Does `needle` occur as a contiguous subsequence? (helper for `strContains`). -/
def containsSeq (needle : List Char) : List Char → Bool
  | [] => needle.isEmpty
  | c :: rest => startsWithL (c :: rest) needle || containsSeq needle rest

/-- Model of Python's substring test `needle in hay` on strings. -/
def strContains (hay needle : String) : Bool :=
  containsSeq needle.data hay.data

/-- `MDItem` (source lines 107-123): a rational value parsed from an
`"N/D"` string, with the original string and the derived float value. -/
structure MDItem where
  raw_value : String
  numerator : Int
  denominator : Int
  float_value : Rat
deriving DecidableEq, Repr

/-- `MDItem.__init__` (source lines 108-113).  `raw_val.split("/")` is
evaluated, `val_list[0]` and `val_list[1]` are converted by `int`, and the
float value `numerator / denominator` is computed.  An out-of-range index
(`IndexError`), a non-integer part (`ValueError`) or a zero denominator
(`ZeroDivisionError` from the division) each raise, i.e. produce `none`;
parts of the split beyond the first two are ignored by the source. -/
def MDItem.init (raw_val : String) : Option MDItem :=
  let val_list := pySplit raw_val '/'
  match val_list[0]?, val_list[1]? with
  | some s0, some s1 =>
    match pyInt s0, pyInt s1 with
    | some n, some d =>
      if d = 0 then none
      else some ⟨raw_val, n, d, (n : Rat) / (d : Rat)⟩
    | _, _ => none
  | _, _ => none

/-- `MDItem.expand_to_ratio` (source lines 122-123):
`int(self.numerator * (denominator / self.denominator))`, the float
arithmetic idealised as exact rational arithmetic. -/
def MDItem.expand_to_ratio (it : MDItem) (denominator : Int) : Int :=
  pyTrunc ((it.numerator : Rat) * ((denominator : Rat) / (it.denominator : Rat)))

/-- Zero-padding of a natural number to four digits (helper for `fmt4`). -/
def zpad4 (n : Nat) : String :=
  let s := toString n
  String.mk (List.replicate (4 - s.length) '0') ++ s

/-- Model of the Python formatting `f"{round(x, 4):.4f}"`: the exact
rational value rounded (half to even) to four decimal places and rendered
with exactly four digits after the decimal point.  (Python's `-0.0` would
print a minus sign; that float artefact is not modelled.) -/
def fmt4 (q : Rat) : String :=
  let m := pyRound (q * 10000)
  let sgn := if m < 0 then "-" else ""
  let a := m.natAbs
  sgn ++ toString (a / 10000) ++ "." ++ zpad4 (a % 10000)

/-- A dictionary of the string-valued side-data fields the source reads
(`side_data_type`, the eight chromaticity `"N/D"` strings, the two
luminance `"N/D"` strings) plus the two integer content-light fields.
An `Option.none` field models an absent key. -/
structure SideData where
  side_data_type : Option String
  red_x : Option String
  red_y : Option String
  green_x : Option String
  green_y : Option String
  blue_x : Option String
  blue_y : Option String
  white_point_x : Option String
  white_point_y : Option String
  min_luminance : Option String
  max_luminance : Option String
  max_content : Option Int
  max_average : Option Int

/-- String-keyed access `side_data[key]` for the string-valued fields. -/
def SideData.get (side_data : SideData) : String → Option String
  | "side_data_type" => side_data.side_data_type
  | "red_x" => side_data.red_x
  | "red_y" => side_data.red_y
  | "green_x" => side_data.green_x
  | "green_y" => side_data.green_y
  | "blue_x" => side_data.blue_x
  | "blue_y" => side_data.blue_y
  | "white_point_x" => side_data.white_point_x
  | "white_point_y" => side_data.white_point_y
  | "min_luminance" => side_data.min_luminance
  | "max_luminance" => side_data.max_luminance
  | _ => none

/-- `MDItemColorXY` (source lines 126-139): one chromaticity point.  The
source's attribute `prefix` is called `pfx` here (`prefix` is not usable
as a Lean field name). -/
structure MDItemColorXY where
  pfx : String
  x_data : MDItem
  y_data : MDItem

/-- `MDItemColorXY.__init__` (source lines 127-130):
`MDItem(side_data[prefix + "_x"])` and `MDItem(side_data[prefix + "_y"])`;
a missing key (`KeyError`) or a malformed rational propagates as `none`. -/
def MDItemColorXY.init (side_data : SideData) (pfx : String) : Option MDItemColorXY :=
  match side_data.get (pfx ++ "_x"), side_data.get (pfx ++ "_y") with
  | some sx, some sy =>
    match MDItem.init sx, MDItem.init sy with
    | some x, some y => some ⟨pfx, x, y⟩
    | _, _ => none
  | _, _ => none

/-- `MDItemColorXY.to_x265` (source lines 135-136):
`f"({x.expand_to_ratio(50000)},{y.expand_to_ratio(50000)})"`. -/
def MDItemColorXY.to_x265 (c : MDItemColorXY) : String :=
  "(" ++ toString (c.x_data.expand_to_ratio 50000) ++ "," ++
    toString (c.y_data.expand_to_ratio 50000) ++ ")"

/-- `MDItemColorXY.to_libsvtav1` (source lines 138-139):
`f"({round(x.float_value, 4):.4f},{round(y.float_value, 4):.4f})"`. -/
def MDItemColorXY.to_libsvtav1 (c : MDItemColorXY) : String :=
  "(" ++ fmt4 c.x_data.float_value ++ "," ++ fmt4 c.y_data.float_value ++ ")"

/-- `MasteringDisplayData` (source lines 142-163). -/
structure MasteringDisplayData where
  red : MDItemColorXY
  green : MDItemColorXY
  blue : MDItemColorXY
  white_point : MDItemColorXY
  min_luminance : MDItem
  max_luminance : MDItem

/-- `MasteringDisplayData.__init__` (source lines 143-149): builds the
four chromaticity points and the two luminance rationals; any missing key
or malformed rational propagates as `none`. -/
def MasteringDisplayData.init (side_data : SideData) : Option MasteringDisplayData :=
  match MDItemColorXY.init side_data "red", MDItemColorXY.init side_data "green",
      MDItemColorXY.init side_data "blue", MDItemColorXY.init side_data "white_point" with
  | some red, some green, some blue, some white_point =>
    match side_data.get "min_luminance", side_data.get "max_luminance" with
    | some smin, some smax =>
      match MDItem.init smin, MDItem.init smax with
      | some min_luminance, some max_luminance =>
        some ⟨red, green, blue, white_point, min_luminance, max_luminance⟩
      | _, _ => none
    | _, _ => none
  | _, _, _, _ => none

/-- `MasteringDisplayData.to_x265_params` (source lines 155-158). -/
def MasteringDisplayData.to_x265_params (m : MasteringDisplayData) : String :=
  "display=G" ++ m.green.to_x265 ++ "B" ++ m.blue.to_x265 ++ "R" ++ m.red.to_x265 ++
    "WP" ++ m.white_point.to_x265 ++
    "L(" ++ toString (m.max_luminance.expand_to_ratio 10000) ++ "," ++
    toString (m.min_luminance.expand_to_ratio 10000) ++ ")"

/-- `MasteringDisplayData.to_libsvtav1_params` (source lines 160-163). -/
def MasteringDisplayData.to_libsvtav1_params (m : MasteringDisplayData) : String :=
  "mastering-display=G" ++ m.green.to_libsvtav1 ++ "B" ++ m.blue.to_libsvtav1 ++
    "R" ++ m.red.to_libsvtav1 ++ "WP" ++ m.white_point.to_libsvtav1 ++
    "L(" ++ fmt4 m.max_luminance.float_value ++ "," ++ fmt4 m.min_luminance.float_value ++ ")"

/-- `ContentLightLevelData` (source lines 166-181). -/
structure ContentLightLevelData where
  max_content : Int
  max_average : Int

/-- `ContentLightLevelData.__init__` (source lines 167-169): reads
`side_data["max_content"]` and `side_data["max_average"]`; a missing key
(`KeyError`) propagates as `none`. -/
def ContentLightLevelData.init (side_data : SideData) : Option ContentLightLevelData :=
  match side_data.max_content, side_data.max_average with
  | some max_content, some max_average => some ⟨max_content, max_average⟩
  | _, _ => none

/-- `ContentLightLevelData.to_x265_params` (source lines 177-178). -/
def ContentLightLevelData.to_x265_params (c : ContentLightLevelData) : String :=
  "max-cll=" ++ toString c.max_content ++ "," ++ toString c.max_average

/-- `ContentLightLevelData.to_libsvtav1_params` (source lines 180-181). -/
def ContentLightLevelData.to_libsvtav1_params (c : ContentLightLevelData) : String :=
  "content-light=" ++ toString c.max_content ++ "," ++ toString c.max_average

/-- `x265_valid_color_matrix` (source lines 24-27). -/
def x265_valid_color_matrix : List String :=
  ["gbr", "bt709", "unknown", "reserved", "fcc", "bt470bg", "smpte170m", "smpte240m", "ycgco",
   "bt2020nc", "bt2020c", "smpte2085", "chroma-derived-nc", "chroma-derived-c", "ictcp"]

/-- `x265_color_matrix_mapping` (source line 29), a dict as an association list. -/
def x265_color_matrix_mapping : List (String × String) :=
  [("bt2020_ncl", "bt2020nc"), ("bt2020_cl", "bt2020c")]

/-- `libaom_valid_matrix_coefficients` (source lines 33-36). -/
def libaom_valid_matrix_coefficients : List String :=
  ["bt709", "fcc73", "bt470bg", "bt601", "smpte240", "ycgco",
   "bt2020ncl", "bt2020cl", "smpte2085", "chromncl", "chromcl", "ictcp"]

/-- `libaom_matrix_coefficients_mapping` (source lines 38-47). -/
def libaom_matrix_coefficients_mapping : List (String × String) :=
  [("fcc", "fcc73"),
   ("smpte240m", "smpte240"),
   ("bt2020nc", "bt2020ncl"),
   ("bt2020_ncl", "bt2020ncl"),
   ("bt2020c", "bt2020cl"),
   ("bt2020_cl", "bt2020cl"),
   ("chroma-derived-nc", "chromncl"),
   ("chroma-derived-c", "chromcl")]

/-- `libaom_get_matrix_coefficients` (source lines 50-56): pass the tag
through when it is already in the valid list, otherwise substitute via the
alias table, otherwise `None`. -/
def libaom_get_matrix_coefficients (color_space : String) : Option String :=
  if libaom_valid_matrix_coefficients.contains color_space then some color_space
  else if (libaom_matrix_coefficients_mapping.lookup color_space).isSome then
    libaom_matrix_coefficients_mapping.lookup color_space
  else none

/-- `libsvtav1_color_primaries_mapping` (source lines 60-72). -/
def libsvtav1_color_primaries_mapping : List (String × Nat) :=
  [("bt709", 1), ("bt470m", 4), ("bt470bg", 5), ("bt601", 6), ("smpte240", 7),
   ("film", 8), ("bt2020", 9), ("xyz", 10), ("smpte431", 11), ("smpte432", 12),
   ("ebu3213", 22)]

/-- `libsvtav1_get_cp_code` (source lines 75-77): table lookup with
default `2` ("unspecified"). -/
def libsvtav1_get_cp_code (color_primaries : String) : Nat :=
  (libsvtav1_color_primaries_mapping.lookup color_primaries).getD 2

/-- `libsvtav1_transfer_characteristics_mapping` (source lines 82-99). -/
def libsvtav1_transfer_characteristics_mapping : List (String × Nat) :=
  [("bt709", 1), ("bt470m", 4), ("bt470bg", 5), ("bt601", 6), ("smpte240", 7),
   ("linear", 8), ("log100", 9), ("log100-sqrt10", 10), ("iec61966", 11),
   ("bt1361", 12), ("srgb", 13), ("bt2020-10", 14), ("bt2020-12", 15),
   ("smpte2084", 16), ("smpte428", 17), ("hlg", 18)]

/-- `libsvtav1_get_tch_code` (source lines 102-104): table lookup with
default `2` ("unspecified"). -/
def libsvtav1_get_tch_code (transfer_characteristics : String) : Nat :=
  (libsvtav1_transfer_characteristics_mapping.lookup transfer_characteristics).getD 2

/-- `ColorData` (source lines 184-224): the four enumerated tags of one
frame. -/
structure ColorData where
  pix_fmt : String
  color_space : String
  color_primaries : String
  color_transfer : String

/-- `ColorData.to_ffmpeg_options` (source lines 195-197). -/
def ColorData.to_ffmpeg_options (cd : ColorData) : String :=
  "-pix_fmt " ++ cd.pix_fmt ++ " -colorspace " ++ cd.color_space ++
    " -color_trc " ++ cd.color_transfer ++ " -color_primaries " ++ cd.color_primaries

/-- `ColorData.to_x265_params` (source lines 199-204): valid-list
pass-through, then alias table, else the empty string. -/
def ColorData.to_x265_params (cd : ColorData) : String :=
  if x265_valid_color_matrix.contains cd.color_space then
    "colormatrix=" ++ cd.color_space
  else if (x265_color_matrix_mapping.lookup cd.color_space).isSome then
    "colormatrix=" ++ (x265_color_matrix_mapping.lookup cd.color_space).getD ""
  else ""

/-- `ColorData.to_libaom_av1_params` (source lines 209-214): raw
primaries/transfer tags, plus a matrix-coefficients sub-field only when
`libaom_get_matrix_coefficients` finds one. -/
def ColorData.to_libaom_av1_params (cd : ColorData) : String :=
  let res := "color-primaries=" ++ cd.color_primaries ++
    ":transfer-characteristics=" ++ cd.color_transfer
  match libaom_get_matrix_coefficients cd.color_space with
  | some mc => res ++ ":matrix-coefficients=" ++ mc
  | none => res

/-- `ColorData.to_libsvtav1_params` (source lines 219-224): numeric
primaries/transfer codes, plus `matrix-coefficients=9` iff the raw color
space contains `"bt2020"` as a substring. -/
def ColorData.to_libsvtav1_params (cd : ColorData) : String :=
  let res := "color-primaries=" ++ toString (libsvtav1_get_cp_code cd.color_primaries) ++
    ":transfer-characteristics=" ++ toString (libsvtav1_get_tch_code cd.color_transfer)
  if strContains cd.color_space "bt2020" then res ++ ":matrix-coefficients=9" else res

/-- A frame descriptor (the dict handed to `parse_frame_data`): the four
color tags plus the side-data list; `none` models an absent key. -/
structure FrameData where
  pix_fmt : Option String
  color_space : Option String
  color_primaries : Option String
  color_transfer : Option String
  side_data_list : Option (List SideData)

/-- Key-indexed access to the four color fields of a frame descriptor. -/
def FrameData.colorGet (frame_data : FrameData) : String → Option String
  | "pix_fmt" => frame_data.pix_fmt
  | "color_space" => frame_data.color_space
  | "color_primaries" => frame_data.color_primaries
  | "color_transfer" => frame_data.color_transfer
  | _ => none

/-- `color_params` (source line 228). -/
def color_params : List String :=
  ["pix_fmt", "color_space", "color_primaries", "color_transfer"]

/-- `missing_params` (source line 230): the required color fields absent
from the frame descriptor, in the fixed `color_params` order. -/
def missingParams (frame_data : FrameData) : List String :=
  color_params.filter (fun k => (frame_data.colorGet k).isNone)

/-- `ColorData.__init__` (source lines 185-189): reads the four color
fields; a missing key (`KeyError`) propagates as `none`. -/
def ColorData.init (frame_data : FrameData) : Option ColorData :=
  match frame_data.pix_fmt, frame_data.color_space,
      frame_data.color_primaries, frame_data.color_transfer with
  | some pix_fmt, some color_space, some color_primaries, some color_transfer =>
    some ⟨pix_fmt, color_space, color_primaries, color_transfer⟩
  | _, _, _, _ => none

/-- The result of one `parse_frame_data` run.  `notHDR` is the reported
early return for missing color fields; `keyError` is an unhandled
`KeyError` (the stored string is the missing key); `sideDataError` is any
exception raised while building a record from one side-data entry
(`KeyError` / `ValueError` / `IndexError` / `ZeroDivisionError`); `ok`
carries the four assembled parameter strings. -/
inductive ParseOutcome where
  | notHDR (missing : List String)
  | keyError (key : String)
  | sideDataError
  | ok (ffmpeg_options x265_params libaom_av1_params libsvtav1_params : String)
deriving DecidableEq

/-- One iteration of the side-data loop (source lines 247-262), acting on
the accumulated `(x265_params, libsvtav1_params)` pair; `none` models an
exception raised while handling the entry. -/
def processSideData (side_data : SideData) (acc : String × String) : Option (String × String) :=
  match side_data.side_data_type with
  | none => none
  | some t =>
    if t = "Mastering display metadata" then
      match MasteringDisplayData.init side_data with
      | some mastering_display_data =>
        some (acc.1 ++ ":" ++ mastering_display_data.to_x265_params,
              acc.2 ++ ":" ++ mastering_display_data.to_libsvtav1_params)
      | none => none
    else if t = "Content light level metadata" then
      match ContentLightLevelData.init side_data with
      | some content_light_level_data =>
        some (acc.1 ++ ":" ++ content_light_level_data.to_x265_params,
              acc.2 ++ ":" ++ content_light_level_data.to_libsvtav1_params)
      | none => none
    else some acc

/-- The side-data loop of `parse_frame_data` over the whole list. -/
def foldSideData : List SideData → String × String → Option (String × String)
  | [], acc => some acc
  | side_data :: rest, acc =>
    match processSideData side_data acc with
    | some acc2 => foldSideData rest acc2
    | none => none

/-- `parse_frame_data` (source lines 227-269).  Validation of the four
color fields happens first; the `side_data_list` key is read unguarded
afterwards (a `KeyError` when absent); the loop then accumulates the
x265/libsvtav1 fragments.  The `keyError "color field"` branch is dead
code: `missingParams frame_data = []` forces all four fields present. -/
def parse_frame_data (frame_data : FrameData) : ParseOutcome :=
  if missingParams frame_data ≠ [] then
    ParseOutcome.notHDR (missingParams frame_data)
  else
    match ColorData.init frame_data with
    | none => ParseOutcome.keyError "color field"
    | some color_data =>
      match frame_data.side_data_list with
      | none => ParseOutcome.keyError "side_data_list"
      | some side_data_list =>
        match foldSideData side_data_list
            (color_data.to_x265_params, color_data.to_libsvtav1_params) with
        | none => ParseOutcome.sideDataError
        | some (x265_params, libsvtav1_params) =>
          ParseOutcome.ok color_data.to_ffmpeg_options x265_params
            color_data.to_libaom_av1_params libsvtav1_params

/-! ### Spec-side definitions

These definitions follow the wording of the specification (not the
source); the claims compare them with the source-derived definitions
above. -/

/-- From the spec (§4.1, §8, claim C2): the string "splits into exactly
two integer parts" and the "denominator" (the second part) is a nonzero
integer. -/
def specRationalOk (s : String) : Bool :=
  match pySplit s '/' with
  | [a, b] =>
    (pyInt a).isSome &&
      (match pyInt b with
       | some d => d != 0
       | none => false)
  | _ => false

/-- The amended success condition for `MDItem.init` (claim C2): the split
yields at least two parts, the first two parse as integers, and the
second (the denominator) is nonzero; any further parts are ignored. -/
def amendedRationalOk (s : String) : Bool :=
  match (pySplit s '/')[0]?, (pySplit s '/')[1]? with
  | some a, some b =>
    (pyInt a).isSome &&
      (match pyInt b with
       | some d => d != 0
       | none => false)
  | _, _ => false

/-- From the spec (§4.3, claim C4): one chromaticity coordinate pair
`(x,y)`, each coordinate rescaled to denominator 50000 via
`expand_to_ratio(50000)` and emitted as a plain integer. -/
def specCoordRescaled (c : MDItemColorXY) : String :=
  "(" ++ toString (c.x_data.expand_to_ratio 50000) ++ "," ++
    toString (c.y_data.expand_to_ratio 50000) ++ ")"

/-- From the spec (§4.3, claim C4): the target-A mastering-display
rendering `display=G(x,y)B(x,y)R(x,y)WP(x,y)L(max,min)` — field order
Green, Blue, Red, White Point, then Luminance with max preceding min,
chromaticity rescaled via `expand_to_ratio(50000)` and luminance via
`expand_to_ratio(10000)`, all emitted as plain integers. -/
def specMasteringDisplayA (m : MasteringDisplayData) : String :=
  "display=" ++ "G" ++ specCoordRescaled m.green ++ "B" ++ specCoordRescaled m.blue ++
    "R" ++ specCoordRescaled m.red ++ "WP" ++ specCoordRescaled m.white_point ++
    "L(" ++ toString (m.max_luminance.expand_to_ratio 10000) ++ "," ++
    toString (m.min_luminance.expand_to_ratio 10000) ++ ")"

/-- The x265 fragment one side-data entry contributes (claim C8),
including its leading `":"` separator; an unrecognized tag contributes
the empty string. -/
def sideFragX265 (side_data : SideData) : String :=
  match side_data.side_data_type with
  | some t =>
    if t = "Mastering display metadata" then
      match MasteringDisplayData.init side_data with
      | some m => ":" ++ m.to_x265_params
      | none => ""
    else if t = "Content light level metadata" then
      match ContentLightLevelData.init side_data with
      | some c => ":" ++ c.to_x265_params
      | none => ""
    else ""
  | none => ""

/-- The libsvtav1 fragment one side-data entry contributes (claim C8),
including its leading `":"` separator; an unrecognized tag contributes
the empty string. -/
def sideFragSvt (side_data : SideData) : String :=
  match side_data.side_data_type with
  | some t =>
    if t = "Mastering display metadata" then
      match MasteringDisplayData.init side_data with
      | some m => ":" ++ m.to_libsvtav1_params
      | none => ""
    else if t = "Content light level metadata" then
      match ContentLightLevelData.init side_data with
      | some c => ":" ++ c.to_libsvtav1_params
      | none => ""
    else ""
  | none => ""

/-- Concatenation of a list of fragments in list order (claim C8). -/
def strConcat (l : List String) : String := l.foldr (· ++ ·) ""

/-- A side-data entry whose processing raises no exception: the tag key
is present, and a recognized tag's record builds successfully. -/
def okSideData (side_data : SideData) : Bool :=
  match side_data.side_data_type with
  | some t =>
    if t = "Mastering display metadata" then (MasteringDisplayData.init side_data).isSome
    else if t = "Content light level metadata" then (ContentLightLevelData.init side_data).isSome
    else true
  | none => false

/-! ### Helper lemmas -/

/-- The executable `Rat.floor` agrees with the mathematical floor. -/
theorem ratFloor_eq_floor (q : Rat) : q.floor = ⌊q⌋ := by
  rw [Rat.floor_def', Rat.floor_def]

/-- `pyTrunc` phrased through the mathematical floor. -/
theorem pyTrunc_def' (q : Rat) : pyTrunc q = if 0 ≤ q then ⌊q⌋ else -⌊-q⌋ := by
  unfold pyTrunc
  rw [ratFloor_eq_floor, ratFloor_eq_floor]

/-- Truncation toward zero of an integer quotient with positive divisor
is `Int.tdiv`. -/
theorem pyTrunc_intCast_div_pos (a b : Int) (hb : 0 < b) :
    pyTrunc ((a : Rat) / (b : Rat)) = a.tdiv b := by
  rw [pyTrunc_def']
  have hbn : ((b.toNat : Nat) : Rat) = (b : Rat) := by
    exact_mod_cast Int.toNat_of_nonneg hb.le
  rcases le_or_lt 0 a with ha | ha
  · have hq : 0 ≤ (a : Rat) / (b : Rat) :=
      div_nonneg (by exact_mod_cast ha) (by exact_mod_cast hb.le)
    rw [if_pos hq, ← hbn, Rat.floor_intCast_div_natCast,
      Int.toNat_of_nonneg hb.le, Int.tdiv_eq_ediv ha hb.le]
  · have hq : (a : Rat) / (b : Rat) < 0 := by
      apply div_neg_of_neg_of_pos
      · exact_mod_cast ha
      · exact_mod_cast hb
    rw [if_neg (not_le.mpr hq)]
    have h1 : -((a : Rat) / (b : Rat)) = ((-a : Int) : Rat) / ((b.toNat : Nat) : Rat) := by
      rw [hbn]; push_cast; ring
    rw [h1, Rat.floor_intCast_div_natCast, Int.toNat_of_nonneg hb.le]
    have h2 : a.tdiv b = -((-a).tdiv b) := by
      rw [Int.neg_tdiv, neg_neg]
    rw [h2, Int.tdiv_eq_ediv (by omega) hb.le]

/-- Truncation toward zero of an integer quotient is `Int.tdiv`, for any
nonzero divisor. -/
theorem pyTrunc_intCast_div (a b : Int) (hb : b ≠ 0) :
    pyTrunc ((a : Rat) / (b : Rat)) = a.tdiv b := by
  rcases lt_or_gt_of_ne hb with hneg | hpos
  · have h1 : (a : Rat) / (b : Rat) = ((-a : Int) : Rat) / ((-b : Int) : Rat) := by
      push_cast; rw [neg_div_neg_eq]
    rw [h1, pyTrunc_intCast_div_pos (-a) (-b) (by omega), Int.neg_tdiv_neg]
  · exact pyTrunc_intCast_div_pos a b hpos

/-- A successfully parsed `MDItem` has a nonzero denominator. -/
theorem MDItem.init_denominator_ne_zero {s : String} {it : MDItem}
    (h : MDItem.init s = some it) : it.denominator ≠ 0 := by
  simp only [MDItem.init] at h
  repeat' split at h
  any_goals exact Option.noConfusion h
  next n d hz =>
    cases h
    exact hz

/-- `expand_to_ratio` over the exact-rational model is `Int.tdiv` of the
cross product, whenever the denominator is nonzero. -/
theorem MDItem.expand_to_ratio_eq_tdiv (it : MDItem) (h : it.denominator ≠ 0) (D : Int) :
    it.expand_to_ratio D = (it.numerator * D).tdiv it.denominator := by
  unfold MDItem.expand_to_ratio
  have h1 : (it.numerator : Rat) * ((D : Rat) / (it.denominator : Rat)) =
      ((it.numerator * D : Int) : Rat) / ((it.denominator : Int) : Rat) := by
    push_cast; ring
  rw [h1, pyTrunc_intCast_div _ _ h]

/-! ### Claim C1 -/

/-- C1, counterexample.  The claim states that for a rational parsed from
`"N/D"` and positive `D'`, `expand_to_ratio(D')` equals the exact rounded
value `round(numerator * D' / denominator)`.  For the rational `"2/3"`
and target denominator `10000` the code computes
`int(2 * (10000 / 3)) = 6666`, while the exact rounded value is `6667`:
the code truncates toward zero, it does not round. -/
theorem c1_counterexample :
    MDItem.init "2/3" = some ⟨"2/3", 2, 3, ((2 : Int) : Rat) / ((3 : Int) : Rat)⟩ ∧
    (⟨"2/3", 2, 3, ((2 : Int) : Rat) / ((3 : Int) : Rat)⟩ : MDItem).expand_to_ratio 10000
      = 6666 ∧
    pyRound (((2 : Int) : Rat) * 10000 / ((3 : Int) : Rat)) = 6667 ∧
    (6666 : Int) ≠ 6667 := by
  refine ⟨rfl, ?_, ?_, by decide⟩
  · rw [MDItem.expand_to_ratio_eq_tdiv _ (by decide) 10000]
    decide
  · have hq : ((2 : Int) : Rat) * 10000 / ((3 : Int) : Rat) =
        ((20000 : Int) : Rat) / ((3 : Nat) : Rat) := by push_cast; ring
    have hf : (((20000 : Int) : Rat) / ((3 : Nat) : Rat)).floor = 6666 := by
      rw [ratFloor_eq_floor, Rat.floor_intCast_div_natCast]
      decide
    rw [hq]
    unfold pyRound
    rw [hf]
    have h1 : ¬(((20000 : Int) : Rat) / ((3 : Nat) : Rat) - ((6666 : Int) : Rat) < 1/2) := by
      push_cast
      norm_num
    have h2 : (1 : Rat)/2 < ((20000 : Int) : Rat) / ((3 : Nat) : Rat) - ((6666 : Int) : Rat) := by
      push_cast
      norm_num
    rw [if_neg h1, if_pos h2]
    decide

/-- C1 (amended): for every rational value successfully parsed from an
`"N/D"` string and every positive integer `D'`,
`expand_to_ratio(D')` equals the exact integer quotient
`numerator * D' / denominator` truncated toward zero (`Int.tdiv`) —
truncation, not rounding. -/
theorem c1_expand_to_ratio_truncates (s : String) (it : MDItem) (D : Int)
    (hs : MDItem.init s = some it) (_hD : 0 < D) :
    it.expand_to_ratio D = (it.numerator * D).tdiv it.denominator :=
  MDItem.expand_to_ratio_eq_tdiv it (MDItem.init_denominator_ne_zero hs) D

/-- C1 witness: the amended theorem applied to the rational `"2/3"` and
target denominator `10000`, where the truncated quotient is `6666`. -/
theorem c1_expand_to_ratio_truncates_witness :
    MDItem.init "2/3" = some ⟨"2/3", 2, 3, ((2 : Int) : Rat) / ((3 : Int) : Rat)⟩ ∧
    (0 : Int) < 10000 ∧
    (⟨"2/3", 2, 3, ((2 : Int) : Rat) / ((3 : Int) : Rat)⟩ : MDItem).expand_to_ratio 10000
      = ((2 * 10000 : Int)).tdiv 3 ∧
    ((2 * 10000 : Int)).tdiv 3 = 6666 :=
  ⟨rfl, by decide,
    c1_expand_to_ratio_truncates "2/3" _ 10000 rfl (by decide), by decide⟩

/-! ### Claim C2 -/

/-- C2, counterexample.  The claim states that construction fails whenever
the string does not split into exactly two integer parts.  The string
`"1/2/3"` splits into three parts, yet `MDItem.__init__` succeeds (it
reads only `val_list[0]` and `val_list[1]` and ignores the rest). -/
theorem c2_counterexample :
    (MDItem.init "1/2/3").isSome = true ∧ specRationalOk "1/2/3" = false := by
  constructor <;> decide

/-- C2 (amended): constructing a rational value from a string succeeds if
and only if the string splits on `"/"` into at least two parts whose
first two are integers and whose second (the denominator) is nonzero;
parts beyond the first two are ignored.  (Failures surface as the
built-in `IndexError` / `ValueError` / `ZeroDivisionError`; the source
defines no `MalformedRationalError` class.) -/
theorem c2_init_succeeds_iff (s : String) :
    (MDItem.init s).isSome = amendedRationalOk s := by
  simp only [MDItem.init, amendedRationalOk]
  cases h0 : (pySplit s '/')[0]? <;> cases h1 : (pySplit s '/')[1]? <;> simp
  next a b =>
    cases hn : pyInt a <;> cases hd : pyInt b <;> simp
    next n d =>
      by_cases hz : d = 0
      · simp [hz]
      · simp [hz]

/-! ### Claim C3 -/

/-- The missing-field computation never looks at the side-data list. -/
theorem missingParams_update_side_data (fd : FrameData) (sdl : Option (List SideData)) :
    missingParams { fd with side_data_list := sdl } = missingParams fd := rfl

/-- The four color fields are all present exactly when `missing_params`
is empty. -/
theorem missingParams_eq_nil_iff (fd : FrameData) :
    missingParams fd = [] ↔
      fd.pix_fmt.isSome ∧ fd.color_space.isSome ∧
        fd.color_primaries.isSome ∧ fd.color_transfer.isSome := by
  rcases fd with ⟨p, cs, pr, tr, sdl⟩
  cases p <;> cases cs <;> cases pr <;> cases tr <;>
    simp [missingParams, color_params, FrameData.colorGet]

/-- C3: a frame descriptor missing any of the four color fields reaches
the terminal not-HDR outcome, carrying exactly the computed list of
missing field names; no parameter strings are produced and the outcome is
the same for every possible side-data list (the list is never read). -/
theorem c3_missing_fields_not_hdr (fd : FrameData)
    (h : fd.pix_fmt = none ∨ fd.color_space = none ∨
      fd.color_primaries = none ∨ fd.color_transfer = none) :
    missingParams fd ≠ [] ∧
    ∀ sdl, parse_frame_data { fd with side_data_list := sdl }
      = ParseOutcome.notHDR (missingParams fd) := by
  have hne : missingParams fd ≠ [] := by
    intro hnil
    rw [missingParams_eq_nil_iff] at hnil
    rcases h with h | h | h | h <;> rw [h] at hnil <;> simp at hnil
  refine ⟨hne, fun sdl => ?_⟩
  rw [parse_frame_data, missingParams_update_side_data,
    if_pos hne]

/-- C3 witness: the spec's own example — a descriptor missing only
`color_transfer` — is reported as not-HDR with exactly that field name. -/
theorem c3_missing_fields_not_hdr_witness :
    missingParams ⟨some "yuv420p10le", some "bt2020nc", some "bt2020", none, some []⟩ ≠ [] ∧
    parse_frame_data ⟨some "yuv420p10le", some "bt2020nc", some "bt2020", none, some []⟩
      = ParseOutcome.notHDR
        (missingParams ⟨some "yuv420p10le", some "bt2020nc", some "bt2020", none, some []⟩) ∧
    missingParams ⟨some "yuv420p10le", some "bt2020nc", some "bt2020", none, some []⟩
      = ["color_transfer"] := by
  have h := c3_missing_fields_not_hdr
    ⟨some "yuv420p10le", some "bt2020nc", some "bt2020", none, some []⟩
    (by decide)
  exact ⟨h.1, h.2 (some []), by decide⟩

/-! ### Claim C4 -/

/-- C4: the target-A rendering of every mastering-display record is
exactly the specification's string
`display=G(x,y)B(x,y)R(x,y)WP(x,y)L(max,min)`: fields in the fixed order
Green, Blue, Red, White Point, then Luminance with max preceding min;
each chromaticity coordinate rescaled via `expand_to_ratio(50000)`, each
luminance via `expand_to_ratio(10000)`, all emitted as plain integers. -/
theorem c4_mastering_display_x265_format (m : MasteringDisplayData) :
    m.to_x265_params = specMasteringDisplayA m := rfl

/-! ### Claim C5 -/

/-- C5: for the color-space tag `"bt2020_ncl"`, the target-A (x265)
mapping yields `"bt2020nc"`, the target-B (libaom) mapping yields
`"bt2020ncl"`, and the target-C (libsvtav1) fragment carries
`matrix-coefficients=9` because `"bt2020"` occurs as a substring. -/
theorem c5_bt2020_ncl_mappings :
    (ColorData.mk "yuv420p10le" "bt2020_ncl" "bt2020" "smpte2084").to_x265_params
      = "colormatrix=bt2020nc" ∧
    libaom_get_matrix_coefficients "bt2020_ncl" = some "bt2020ncl" ∧
    (ColorData.mk "yuv420p10le" "bt2020_ncl" "bt2020" "smpte2084").to_libaom_av1_params
      = "color-primaries=bt2020:transfer-characteristics=smpte2084:matrix-coefficients=bt2020ncl" ∧
    strContains "bt2020_ncl" "bt2020" = true ∧
    (ColorData.mk "yuv420p10le" "bt2020_ncl" "bt2020" "smpte2084").to_libsvtav1_params
      = "color-primaries=9:transfer-characteristics=16:matrix-coefficients=9" := by
  refine ⟨?_, ?_, ?_, ?_, ?_⟩ <;> decide

/-! ### Claim C6 -/

/-- C6: for a color descriptor with color space `"unknown"`, primaries
`"bt709"`, transfer `"smpte2084"`: the target-A fragment is exactly
`"colormatrix=unknown"` and the target-C fragment is exactly
`"color-primaries=1:transfer-characteristics=16"`, with no
matrix-coefficients sub-field appended. -/
theorem c6_unknown_bt709_smpte2084 :
    (ColorData.mk "yuv420p10le" "unknown" "bt709" "smpte2084").to_x265_params
      = "colormatrix=unknown" ∧
    (ColorData.mk "yuv420p10le" "unknown" "bt709" "smpte2084").to_libsvtav1_params
      = "color-primaries=1:transfer-characteristics=16" := by
  constructor <;> decide

/-! ### Claim C7 -/

/-- C7: targets A and B resolve the matrix-coefficients value by first
checking membership in the target's valid list (returning the tag
unchanged), then the alias table (returning the alias); when neither
matches the field is silently omitted — target A's fragment becomes the
empty string and target B's fragment still carries color-primaries and
transfer-characteristics but no matrix-coefficients sub-field.  All the
involved functions are total, so no error is ever raised. -/
theorem c7_matrix_resolution_order (cd : ColorData) :
    (x265_valid_color_matrix.contains cd.color_space = true →
      cd.to_x265_params = "colormatrix=" ++ cd.color_space) ∧
    (x265_valid_color_matrix.contains cd.color_space = false →
      ∀ m, x265_color_matrix_mapping.lookup cd.color_space = some m →
        cd.to_x265_params = "colormatrix=" ++ m) ∧
    (x265_valid_color_matrix.contains cd.color_space = false →
      x265_color_matrix_mapping.lookup cd.color_space = none →
      cd.to_x265_params = "") ∧
    (libaom_valid_matrix_coefficients.contains cd.color_space = true →
      libaom_get_matrix_coefficients cd.color_space = some cd.color_space) ∧
    (libaom_valid_matrix_coefficients.contains cd.color_space = false →
      ∀ m, libaom_matrix_coefficients_mapping.lookup cd.color_space = some m →
        libaom_get_matrix_coefficients cd.color_space = some m) ∧
    (libaom_valid_matrix_coefficients.contains cd.color_space = false →
      libaom_matrix_coefficients_mapping.lookup cd.color_space = none →
      libaom_get_matrix_coefficients cd.color_space = none) ∧
    (∀ m, libaom_get_matrix_coefficients cd.color_space = some m →
      cd.to_libaom_av1_params = "color-primaries=" ++ cd.color_primaries ++
        ":transfer-characteristics=" ++ cd.color_transfer ++ ":matrix-coefficients=" ++ m) ∧
    (libaom_get_matrix_coefficients cd.color_space = none →
      cd.to_libaom_av1_params = "color-primaries=" ++ cd.color_primaries ++
        ":transfer-characteristics=" ++ cd.color_transfer) := by
  refine ⟨?_, ?_, ?_, ?_, ?_, ?_, ?_, ?_⟩
  · intro h
    unfold ColorData.to_x265_params
    rw [h]
    simp
  · intro h m hm
    unfold ColorData.to_x265_params
    rw [h, hm]
    simp
  · intro h hm
    unfold ColorData.to_x265_params
    rw [h, hm]
    simp
  · intro h
    unfold libaom_get_matrix_coefficients
    rw [h]
    simp
  · intro h m hm
    unfold libaom_get_matrix_coefficients
    rw [h, hm]
    simp
  · intro h hm
    unfold libaom_get_matrix_coefficients
    rw [h, hm]
    simp
  · intro m hm
    simp [ColorData.to_libaom_av1_params, hm]
  · intro hm
    simp [ColorData.to_libaom_av1_params, hm]

/-- C7 witness: the three resolution tiers at concrete tags — `"ycgco"`
(valid for both targets, passed through), `"bt2020_ncl"` (resolved via
each alias table), and `"nonsense"` (unmapped: target A's fragment is
empty, target B's keeps primaries/transfer only). -/
theorem c7_matrix_resolution_order_witness :
    (ColorData.mk "f" "ycgco" "pp" "tt").to_x265_params = "colormatrix=ycgco" ∧
    (ColorData.mk "f" "ycgco" "pp" "tt").to_libaom_av1_params
      = "color-primaries=pp:transfer-characteristics=tt:matrix-coefficients=ycgco" ∧
    (ColorData.mk "f" "bt2020_ncl" "pp" "tt").to_x265_params = "colormatrix=bt2020nc" ∧
    (ColorData.mk "f" "bt2020_ncl" "pp" "tt").to_libaom_av1_params
      = "color-primaries=pp:transfer-characteristics=tt:matrix-coefficients=bt2020ncl" ∧
    (ColorData.mk "f" "nonsense" "pp" "tt").to_x265_params = "" ∧
    (ColorData.mk "f" "nonsense" "pp" "tt").to_libaom_av1_params
      = "color-primaries=pp:transfer-characteristics=tt" := by
  have hv := c7_matrix_resolution_order (ColorData.mk "f" "ycgco" "pp" "tt")
  have ha := c7_matrix_resolution_order (ColorData.mk "f" "bt2020_ncl" "pp" "tt")
  have hu := c7_matrix_resolution_order (ColorData.mk "f" "nonsense" "pp" "tt")
  refine ⟨(hv.1 (by decide)).trans (by decide), ?_, ?_, ?_, ?_, ?_⟩
  · have h1 := hv.2.2.2.1 (by decide)
    have h2 := hv.2.2.2.2.2.2.1 _ h1
    exact h2.trans (by decide)
  · exact ((ha.2.1 (by decide)) "bt2020nc" (by decide)).trans (by decide)
  · have h1 := ha.2.2.2.2.1 (by decide) "bt2020ncl" (by decide)
    have h2 := ha.2.2.2.2.2.2.1 _ h1
    exact h2.trans (by decide)
  · exact hu.2.2.1 (by decide) (by decide)
  · have h1 := hu.2.2.2.2.2.1 (by decide) (by decide)
    have h2 := hu.2.2.2.2.2.2.2 h1
    exact h2.trans (by decide)

/-! ### Claim C8 -/

/-- The side-data loop, when no entry raises, appends every entry's
`":"`-prefixed fragments to the running strings in encounter order. -/
theorem foldSideData_ok (l : List SideData) (h : ∀ sd ∈ l, okSideData sd = true)
    (x0 s0 : String) :
    foldSideData l (x0, s0) =
      some (x0 ++ strConcat (l.map sideFragX265), s0 ++ strConcat (l.map sideFragSvt)) := by
  induction l generalizing x0 s0 with
  | nil => simp [foldSideData, strConcat]
  | cons sd rest ih =>
    have hsd : okSideData sd = true := h sd (by simp)
    have hrest : ∀ e ∈ rest, okSideData e = true := fun e he => h e (by simp [he])
    cases ht : sd.side_data_type with
    | none => simp [okSideData, ht] at hsd
    | some t =>
      by_cases hM : t = "Mastering display metadata"
      · subst hM
        cases hmd : MasteringDisplayData.init sd with
        | none => simp [okSideData, ht, hmd] at hsd
        | some m =>
          have hp : processSideData sd (x0, s0) =
              some (x0 ++ ":" ++ m.to_x265_params, s0 ++ ":" ++ m.to_libsvtav1_params) := by
            simp [processSideData, ht, hmd]
          have hf : sideFragX265 sd = ":" ++ m.to_x265_params := by
            simp [sideFragX265, ht, hmd]
          have hg : sideFragSvt sd = ":" ++ m.to_libsvtav1_params := by
            simp [sideFragSvt, ht, hmd]
          simp only [foldSideData, hp]
          rw [ih hrest]
          simp [hf, hg, strConcat, String.append_assoc]
      · by_cases hC : t = "Content light level metadata"
        · subst hC
          cases hcl : ContentLightLevelData.init sd with
          | none => simp [okSideData, ht, hM, hcl] at hsd
          | some c =>
            have hp : processSideData sd (x0, s0) =
                some (x0 ++ ":" ++ c.to_x265_params, s0 ++ ":" ++ c.to_libsvtav1_params) := by
              simp [processSideData, ht, hM, hcl]
            have hf : sideFragX265 sd = ":" ++ c.to_x265_params := by
              simp [sideFragX265, ht, hM, hcl]
            have hg : sideFragSvt sd = ":" ++ c.to_libsvtav1_params := by
              simp [sideFragSvt, ht, hM, hcl]
            simp only [foldSideData, hp]
            rw [ih hrest]
            simp [hf, hg, strConcat, String.append_assoc]
        · have hp : processSideData sd (x0, s0) = some (x0, s0) := by
            simp [processSideData, ht, hM, hC]
          have hf : sideFragX265 sd = "" := by
            simp [sideFragX265, ht, hM, hC]
          have hg : sideFragSvt sd = "" := by
            simp [sideFragSvt, ht, hM, hC]
          simp only [foldSideData, hp]
          rw [ih hrest]
          simp [hf, hg, strConcat]

/-- C8: when every side-data entry processes cleanly, each entry —
recognized tags included duplicates — contributes its own `":"`-prefixed
fragment to the target-A and target-C parameter strings in list encounter
order (nothing is overwritten, all appends accumulate), while entries
with unrecognized tags contribute the empty fragment to both. -/
theorem c8_side_data_accumulation (fd : FrameData) (p cs pr tr : String) (l : List SideData)
    (hp : fd.pix_fmt = some p) (hcs : fd.color_space = some cs)
    (hpr : fd.color_primaries = some pr) (htr : fd.color_transfer = some tr)
    (hl : fd.side_data_list = some l)
    (hok : ∀ sd ∈ l, okSideData sd = true) :
    parse_frame_data fd = ParseOutcome.ok
      (ColorData.mk p cs pr tr).to_ffmpeg_options
      ((ColorData.mk p cs pr tr).to_x265_params ++ strConcat (l.map sideFragX265))
      (ColorData.mk p cs pr tr).to_libaom_av1_params
      ((ColorData.mk p cs pr tr).to_libsvtav1_params ++ strConcat (l.map sideFragSvt)) ∧
    ∀ (sd : SideData) (t : String), sd.side_data_type = some t →
      t ≠ "Mastering display metadata" → t ≠ "Content light level metadata" →
      sideFragX265 sd = "" ∧ sideFragSvt sd = "" := by
  constructor
  · rcases fd with ⟨p₁, cs₁, pr₁, tr₁, sdl₁⟩
    simp only at hp hcs hpr htr hl
    subst hp; subst hcs; subst hpr; subst htr; subst hl
    have hmp : missingParams ⟨some p, some cs, some pr, some tr, some l⟩ = [] := rfl
    unfold parse_frame_data
    rw [hmp]
    simp only [ne_eq, not_true_eq_false, if_false, ColorData.init,
      foldSideData_ok l hok]
  · intro sd t hts hM hC
    constructor
    · simp [sideFragX265, hts, hM, hC]
    · simp [sideFragSvt, hts, hM, hC]

/-- C8 witness: two content-light-level blocks with different values both
contribute fragments, in encounter order, to the x265 and libsvtav1
strings. -/
theorem c8_side_data_accumulation_witness :
    parse_frame_data
      ⟨some "yuv420p10le", some "bt2020nc", some "bt2020", some "smpte2084",
        some [⟨some "Content light level metadata", none, none, none, none, none, none,
                none, none, none, none, some 1000, some 239⟩,
              ⟨some "Content light level metadata", none, none, none, none, none, none,
                none, none, none, none, some 500, some 100⟩]⟩
      = ParseOutcome.ok
        "-pix_fmt yuv420p10le -colorspace bt2020nc -color_trc smpte2084 -color_primaries bt2020"
        "colormatrix=bt2020nc:max-cll=1000,239:max-cll=500,100"
        "color-primaries=bt2020:transfer-characteristics=smpte2084:matrix-coefficients=bt2020ncl"
        "color-primaries=9:transfer-characteristics=16:matrix-coefficients=9:content-light=1000,239:content-light=500,100" := by
  have h := (c8_side_data_accumulation
    ⟨some "yuv420p10le", some "bt2020nc", some "bt2020", some "smpte2084",
      some [⟨some "Content light level metadata", none, none, none, none, none, none,
              none, none, none, none, some 1000, some 239⟩,
            ⟨some "Content light level metadata", none, none, none, none, none, none,
              none, none, none, none, some 500, some 100⟩]⟩
    "yuv420p10le" "bt2020nc" "bt2020" "smpte2084" _
    rfl rfl rfl rfl rfl (by decide)).1
  exact h.trans (by decide)

/-! ### Claim C9 -/

/-- C9: a frame descriptor with all four color fields present but no
`side_data_list` key is not reported as not-HDR; the step-1 validation
checks only the four color fields, and the subsequent unguarded
`frame_data["side_data_list"]` lookup raises `KeyError`. -/
theorem c9_missing_side_data_list_key_error (fd : FrameData)
    (h1 : fd.pix_fmt.isSome = true) (h2 : fd.color_space.isSome = true)
    (h3 : fd.color_primaries.isSome = true) (h4 : fd.color_transfer.isSome = true)
    (h5 : fd.side_data_list = none) :
    parse_frame_data fd = ParseOutcome.keyError "side_data_list" ∧
    ∀ missing, parse_frame_data fd ≠ ParseOutcome.notHDR missing := by
  obtain ⟨p, hp⟩ := Option.isSome_iff_exists.mp h1
  obtain ⟨cs, hcs⟩ := Option.isSome_iff_exists.mp h2
  obtain ⟨pr, hpr⟩ := Option.isSome_iff_exists.mp h3
  obtain ⟨tr, htr⟩ := Option.isSome_iff_exists.mp h4
  rcases fd with ⟨p₁, cs₁, pr₁, tr₁, sdl₁⟩
  simp only at hp hcs hpr htr h5
  subst hp; subst hcs; subst hpr; subst htr; subst h5
  have hmp : missingParams ⟨some p, some cs, some pr, some tr, none⟩ = [] := rfl
  have hout : parse_frame_data ⟨some p, some cs, some pr, some tr, none⟩
      = ParseOutcome.keyError "side_data_list" := by
    unfold parse_frame_data
    rw [hmp]
    simp only [ne_eq, not_true_eq_false, if_false, ColorData.init]
  refine ⟨hout, fun missing => ?_⟩
  rw [hout]
  simp

/-- C9 witness: the theorem at a concrete descriptor carrying all four
color fields and no side-data list. -/
theorem c9_missing_side_data_list_key_error_witness :
    parse_frame_data ⟨some "yuv420p10le", some "bt2020nc", some "bt2020",
        some "smpte2084", none⟩
      = ParseOutcome.keyError "side_data_list" :=
  (c9_missing_side_data_list_key_error
    ⟨some "yuv420p10le", some "bt2020nc", some "bt2020", some "smpte2084", none⟩
    rfl rfl rfl rfl rfl).1

/-! ### Claim C10 -/

/-- C10: whenever `parse_frame_data` completes with the four parameter
strings, the target-B (libaom) string is exactly the color descriptor's
target-B fragment and the playback-flags string exactly its ffmpeg
fragment — both depend only on the four color fields, never on the
side-data list. -/
theorem c10_libaom_independent_of_side_data (fd : FrameData)
    (p cs pr tr fm x la s : String)
    (hp : fd.pix_fmt = some p) (hcs : fd.color_space = some cs)
    (hpr : fd.color_primaries = some pr) (htr : fd.color_transfer = some tr)
    (hok : parse_frame_data fd = ParseOutcome.ok fm x la s) :
    la = (ColorData.mk p cs pr tr).to_libaom_av1_params ∧
    fm = (ColorData.mk p cs pr tr).to_ffmpeg_options := by
  rcases fd with ⟨p₁, cs₁, pr₁, tr₁, sdl₁⟩
  simp only at hp hcs hpr htr
  subst hp; subst hcs; subst hpr; subst htr
  have hmp : missingParams ⟨some p, some cs, some pr, some tr, sdl₁⟩ = [] := rfl
  unfold parse_frame_data at hok
  rw [hmp] at hok
  simp only [ne_eq, not_true_eq_false, if_false, ColorData.init] at hok
  cases sdl₁ with
  | none => exact absurd hok (by simp)
  | some l =>
    dsimp only at hok
    cases hfold : foldSideData l
        ((ColorData.mk p cs pr tr).to_x265_params,
          (ColorData.mk p cs pr tr).to_libsvtav1_params) with
    | none =>
      rw [hfold] at hok
      exact absurd hok (by simp)
    | some acc =>
      rcases acc with ⟨x2, s2⟩
      rw [hfold] at hok
      simp only [ParseOutcome.ok.injEq] at hok
      exact ⟨hok.2.2.1.symm, hok.1.symm⟩

/-- C10 witness: the theorem applied to two concrete descriptors that
differ only in their side-data lists (one empty, one with a
content-light block): both produce the same libaom and playback-flags
strings, equal to the color descriptor's own fragments. -/
theorem c10_libaom_independent_of_side_data_witness :
    parse_frame_data ⟨some "yuv420p10le", some "bt2020nc", some "bt2020",
        some "smpte2084", some []⟩
      = ParseOutcome.ok
        "-pix_fmt yuv420p10le -colorspace bt2020nc -color_trc smpte2084 -color_primaries bt2020"
        "colormatrix=bt2020nc"
        "color-primaries=bt2020:transfer-characteristics=smpte2084:matrix-coefficients=bt2020ncl"
        "color-primaries=9:transfer-characteristics=16:matrix-coefficients=9" ∧
    parse_frame_data ⟨some "yuv420p10le", some "bt2020nc", some "bt2020",
        some "smpte2084",
        some [⟨some "Content light level metadata", none, none, none, none, none, none,
                none, none, none, none, some 1000, some 239⟩]⟩
      = ParseOutcome.ok
        "-pix_fmt yuv420p10le -colorspace bt2020nc -color_trc smpte2084 -color_primaries bt2020"
        "colormatrix=bt2020nc:max-cll=1000,239"
        "color-primaries=bt2020:transfer-characteristics=smpte2084:matrix-coefficients=bt2020ncl"
        "color-primaries=9:transfer-characteristics=16:matrix-coefficients=9:content-light=1000,239" ∧
    "color-primaries=bt2020:transfer-characteristics=smpte2084:matrix-coefficients=bt2020ncl"
      = (ColorData.mk "yuv420p10le" "bt2020nc" "bt2020" "smpte2084").to_libaom_av1_params ∧
    "-pix_fmt yuv420p10le -colorspace bt2020nc -color_trc smpte2084 -color_primaries bt2020"
      = (ColorData.mk "yuv420p10le" "bt2020nc" "bt2020" "smpte2084").to_ffmpeg_options := by
  have hok1 : parse_frame_data ⟨some "yuv420p10le", some "bt2020nc", some "bt2020",
      some "smpte2084", some []⟩
      = ParseOutcome.ok
        "-pix_fmt yuv420p10le -colorspace bt2020nc -color_trc smpte2084 -color_primaries bt2020"
        "colormatrix=bt2020nc"
        "color-primaries=bt2020:transfer-characteristics=smpte2084:matrix-coefficients=bt2020ncl"
        "color-primaries=9:transfer-characteristics=16:matrix-coefficients=9" := by decide
  have hok2 : parse_frame_data ⟨some "yuv420p10le", some "bt2020nc", some "bt2020",
      some "smpte2084",
      some [⟨some "Content light level metadata", none, none, none, none, none, none,
              none, none, none, none, some 1000, some 239⟩]⟩
      = ParseOutcome.ok
        "-pix_fmt yuv420p10le -colorspace bt2020nc -color_trc smpte2084 -color_primaries bt2020"
        "colormatrix=bt2020nc:max-cll=1000,239"
        "color-primaries=bt2020:transfer-characteristics=smpte2084:matrix-coefficients=bt2020ncl"
        "color-primaries=9:transfer-characteristics=16:matrix-coefficients=9:content-light=1000,239" := by
    decide
  have h := c10_libaom_independent_of_side_data _ "yuv420p10le" "bt2020nc" "bt2020" "smpte2084"
    _ _ _ _ rfl rfl rfl rfl hok1
  exact ⟨hok1, hok2, h.1, h.2⟩
